import Mathlib

/-!
Shallow embedding of the `guiguigui` backend adapters
(`src/guiguigui/backend/macos.py` and `src/guiguigui/backend/x11.py`).

Platform state that the adapters merely read (the CoreGraphics display list,
RandR output resources, the X11 window tree, native pasteboard or selection
contents, ...) is passed in explicitly as environment records; the adapter
logic itself is translated from the Python source, line references included.
-/

namespace Guiguigui

/-- Modelled from the spec: `core/types.py` is not among the sources; §3 of the
design gives `Point {x, y : integer}`. -/
structure Point where
  x : Int
  y : Int
deriving DecidableEq

/-- Modelled from the spec: `Size {width, height : integer}`. -/
structure Size where
  width : Int
  height : Int
deriving DecidableEq

/-- Modelled from the spec: `Rect {x, y, width, height : integer}`. -/
structure Rect where
  x : Int
  y : Int
  width : Int
  height : Int
deriving DecidableEq

/-- Modelled from the spec: `WindowState` enum `{NORMAL, MINIMIZED, MAXIMIZED}`. -/
inductive WindowState where
  | normal
  | minimized
  | maximized
deriving DecidableEq

/-- Modelled from the spec: `MouseButton` enum `{LEFT, RIGHT, MIDDLE, X1, X2}`. -/
inductive MouseButton where
  | left
  | right
  | middle
  | x1
  | x2
deriving DecidableEq

/-- How Python renders the enum member inside an f-string such as
`f"Unsupported button: {button}"`. -/
def MouseButton.reprStr : MouseButton → String
  | .left => "MouseButton.LEFT"
  | .right => "MouseButton.RIGHT"
  | .middle => "MouseButton.MIDDLE"
  | .x1 => "MouseButton.X1"
  | .x2 => "MouseButton.X2"

/-- Modelled from the spec: `DisplayInfo` record of §3 (`core/types.py` is not
among the sources). CoreGraphics floats are embedded as rationals. -/
structure DisplayInfo where
  id : String
  name : String
  bounds : Rect
  work_area : Rect
  scale : ℚ
  physical_size : Size
  refresh_rate : ℚ
  rotation : Int
  is_primary : Bool
deriving DecidableEq

/-- Modelled from the spec: `WindowInfo` record of §3. -/
structure WindowInfo where
  handle : Nat
  title : String
  class_name : String
  pid : Nat
  process_name : String
  rect : Rect
  client_rect : Rect
  state : WindowState
  is_visible : Bool
  is_active : Bool
  is_always_on_top : Bool
  opacity : ℚ
deriving DecidableEq

/-- Modelled from the spec: `core/errors.py` is not among the sources.
`valueError` stands for Python's `ValueError` (the `UnknownKey` and
`UnsupportedButton` failures of §7), `notImplementedError` for
`NotImplementedError`, and `backendCapabilityError operation platform` for
`BackendCapabilityError(operation, platform)` as raised in macos.py. -/
inductive GuiError where
  | valueError (msg : String)
  | notImplementedError (msg : String)
  | backendCapabilityError (operation : String) (platform : String)
deriving DecidableEq

/-- Python `int(q)` applied to a real value: truncation toward zero. -/
def pyInt (q : ℚ) : Int := if 0 ≤ q then ⌊q⌋ else ⌈q⌉

/-- Python `str.lower()`, character by character (the key strings the adapters
lower-case are ASCII). -/
def pyLower (s : String) : String := String.mk (s.data.map Char.toLower)

/-- The bounding box both adapters compute over a non-empty display list:
`min` of all `bounds.x`/`bounds.y`, `max` of all `bounds.x + width` /
`bounds.y + height`, returned as `(min_x, min_y, max_x - min_x, max_y - min_y)`
(macos.py lines 345-350, x11.py lines 334-339). -/
def boundingRect (d : DisplayInfo) (ds : List DisplayInfo) : Rect :=
  let minX := (ds.map fun e => e.bounds.x).foldl min d.bounds.x
  let minY := (ds.map fun e => e.bounds.y).foldl min d.bounds.y
  let maxX := (ds.map fun e => e.bounds.x + e.bounds.width).foldl max
      (d.bounds.x + d.bounds.width)
  let maxY := (ds.map fun e => e.bounds.y + e.bounds.height).foldl max
      (d.bounds.y + d.bounds.height)
  ⟨minX, minY, maxX - minX, maxY - minY⟩

/-- The containment the spec asserts between the virtual screen rect and each
display's bounds: no edge of `b` exceeds `r`. -/
def rectContainsRect (r b : Rect) : Prop :=
  r.x ≤ b.x ∧ r.y ≤ b.y ∧ b.x + b.width ≤ r.x + r.width ∧
    b.y + b.height ≤ r.y + r.height

instance (r b : Rect) : Decidable (rectContainsRect r b) := by
  unfold rectContainsRect; infer_instance

namespace MacOS

/-- One entry of the `CGGetActiveDisplayList` result together with the
per-display values the adapter reads from CoreGraphics: `CGDisplayBounds`
(a float rect, embedded as rationals) and `CGDisplayModeGetRefreshRate`. -/
structure MacDisplay where
  id : Nat
  boundsX : ℚ
  boundsY : ℚ
  boundsW : ℚ
  boundsH : ℚ
  refreshRate : ℚ
deriving DecidableEq

/-- One entry of `NSScreen.screens()`: the frame origin and the backing scale
factor the adapter reads. -/
structure ScreenInfo where
  frameX : ℚ
  frameY : ℚ
  backingScaleFactor : ℚ
deriving DecidableEq

/-- The platform state `MacOSBackend.get_displays` reads. `err` models a
non-zero error result of `CGGetActiveDisplayList`. -/
structure MacEnv where
  err : Bool
  activeDisplays : List MacDisplay
  mainDisplayID : Nat
  screens : List ScreenInfo
deriving DecidableEq

/-- The scale search of macos.py lines 285-293: the first `NSScreen` whose
frame origin is within 1 of the display bounds origin supplies
`backingScaleFactor`; otherwise the scale stays `1.0`. -/
def scaleFor (screens : List ScreenInfo) (bx oy : ℚ) : ℚ :=
  match screens.find? (fun s =>
      decide (|s.frameX - bx| < 1) && decide (|s.frameY - oy| < 1)) with
  | some s => s.backingScaleFactor
  | none => 1

/-- macos.py lines 281-327: the body of the display enumeration loop at index
`i`, building one `DisplayInfo`. `physical_size` is
`int(bounds.size.width * scale)` by `int(bounds.size.height * scale)`,
`is_primary` is `display_id == CGMainDisplayID()`. -/
def mkDisplay (env : MacEnv) (i : Nat) (md : MacDisplay) : DisplayInfo :=
  let scale := scaleFor env.screens md.boundsX md.boundsY
  let rr := if md.refreshRate = 0 then 60 else md.refreshRate
  let b : Rect := ⟨pyInt md.boundsX, pyInt md.boundsY, pyInt md.boundsW, pyInt md.boundsH⟩
  { id := toString md.id
    name := "Display " ++ toString (i + 1)
    bounds := b
    work_area := b
    scale := scale
    physical_size := ⟨pyInt (md.boundsW * scale), pyInt (md.boundsH * scale)⟩
    refresh_rate := rr
    rotation := 0
    is_primary := decide (md.id = env.mainDisplayID) }

/-- The `for i in range(count)` loop of macos.py lines 281-327. -/
def displaysFrom (env : MacEnv) : Nat → List MacDisplay → List DisplayInfo
  | _, [] => []
  | i, md :: rest => mkDisplay env i md :: displaysFrom env (i + 1) rest

/-- `MacOSBackend.get_displays` (macos.py lines 274-329): empty on a
`CGGetActiveDisplayList` error or an empty display list. -/
def get_displays (env : MacEnv) : List DisplayInfo :=
  if env.err then [] else displaysFrom env 0 env.activeDisplays

/-- `MacOSBackend.get_virtual_screen_rect` (macos.py lines 340-350). -/
def get_virtual_screen_rect (env : MacEnv) : Rect :=
  match get_displays env with
  | [] => ⟨0, 0, 0, 0⟩
  | d :: ds => boundingRect d ds

/-- One entry of the `CGWindowListCopyWindowInfo` result: the dictionary keys
`MacOSBackend.list_windows` reads, after Python's `int(...)` on the bounds. -/
structure CGWindow where
  ownerName : String
  windowName : String
  windowNumber : Nat
  ownerPID : Nat
  x : Int
  y : Int
  width : Int
  height : Int
  layer : Int
  isOnScreen : Bool
  alpha : ℚ
deriving DecidableEq

/-- `MacOSBackend.list_windows` (macos.py lines 352-398). The native
on-screen-only filtering done by `kCGWindowListOptionOnScreenOnly` is modelled
by filtering the environment list on `isOnScreen` when `visibleOnly` is set.
The loop body skips a window exactly when `width == 0 or height == 0`
(line 379) and otherwise emits a `WindowInfo` as on lines 382-395. -/
def list_windows (visibleOnly : Bool) (windowList : List CGWindow) : List WindowInfo :=
  let lst := if visibleOnly then windowList.filter (fun w => w.isOnScreen) else windowList
  lst.filterMap fun w =>
    if w.width = 0 ∨ w.height = 0 then none
    else some
      { handle := w.windowNumber
        title := w.windowName
        class_name := w.ownerName
        pid := w.ownerPID
        process_name := w.ownerName
        rect := ⟨w.x, w.y, w.width, w.height⟩
        client_rect := ⟨w.x, w.y, w.width, w.height⟩
        state := WindowState.normal
        is_visible := w.isOnScreen && visibleOnly
        is_active := false
        is_always_on_top := decide ((0 : Int) < w.layer)
        opacity := w.alpha }

/-- `MacOSBackend.mouse_press` (macos.py lines 156-172): LEFT/RIGHT/MIDDLE
post a native event; any other button raises
`ValueError(f"Unsupported button: {button}")`. The posted event is modelled
as `ok`. -/
def mouse_press (b : MouseButton) : Except GuiError Unit :=
  match b with
  | .left => .ok ()
  | .right => .ok ()
  | .middle => .ok ()
  | b => .error (.valueError ("Unsupported button: " ++ b.reprStr))

/-- `MacOSBackend.mouse_release` (macos.py lines 174-190), same shape as
`mouse_press`. -/
def mouse_release (b : MouseButton) : Except GuiError Unit :=
  match b with
  | .left => .ok ()
  | .right => .ok ()
  | .middle => .ok ()
  | b => .error (.valueError ("Unsupported button: " ++ b.reprStr))

/-- `MacOSBackend.mouse_is_pressed` (macos.py lines 198-204): the button —
every button, X1/X2 included — is handed as `button.value` to
`CGEventSourceButtonState` and the native answer is returned as a bool.
There is no error path. `buttonState` models the native query. -/
def mouse_is_pressed (buttonState : MouseButton → Bool) (b : MouseButton) :
    Except GuiError Bool :=
  .ok (buttonState b)

/-- The literal `_build_key_code_map` dictionary of macos.py lines 55-133. -/
def key_code_map : List (String × Nat) :=
  [("a", 0x00), ("b", 0x0B), ("c", 0x08), ("d", 0x02), ("e", 0x0E),
   ("f", 0x03), ("g", 0x05), ("h", 0x04), ("i", 0x22), ("j", 0x26),
   ("k", 0x28), ("l", 0x25), ("m", 0x2E), ("n", 0x2D), ("o", 0x1F),
   ("p", 0x23), ("q", 0x0C), ("r", 0x0F), ("s", 0x01), ("t", 0x11),
   ("u", 0x20), ("v", 0x09), ("w", 0x0D), ("x", 0x07), ("y", 0x10),
   ("z", 0x06),
   ("0", 0x1D), ("1", 0x12), ("2", 0x13), ("3", 0x14), ("4", 0x15),
   ("5", 0x17), ("6", 0x16), ("7", 0x1A), ("8", 0x1C), ("9", 0x19),
   ("enter", 0x24), ("return", 0x24), ("tab", 0x30), ("space", 0x31),
   ("backspace", 0x33), ("delete", 0x75), ("esc", 0x35), ("escape", 0x35),
   ("shift", 0x38), ("ctrl", 0x3B), ("control", 0x3B), ("alt", 0x3A),
   ("option", 0x3A), ("cmd", 0x37), ("command", 0x37), ("meta", 0x37),
   ("left", 0x7B), ("right", 0x7C), ("up", 0x7E), ("down", 0x7D),
   ("home", 0x73), ("end", 0x77), ("pageup", 0x74), ("pagedown", 0x79),
   ("f1", 0x7A), ("f2", 0x78), ("f3", 0x63), ("f4", 0x76), ("f5", 0x60),
   ("f6", 0x61), ("f7", 0x62), ("f8", 0x64), ("f9", 0x65), ("f10", 0x6D),
   ("f11", 0x67), ("f12", 0x6F), ("f13", 0x69), ("f14", 0x6B),
   ("f15", 0x71), ("capslock", 0x39)]

/-- `MacOSBackend._get_key_code` (macos.py lines 135-141): lower-case the key
(a `Key` argument contributes its string value first) and look it up; a miss
raises `ValueError(f"Unknown key: {key}")` with the lowered key. -/
def get_key_code (key : String) : Except GuiError Nat :=
  let k := pyLower key
  match key_code_map.lookup k with
  | some code => .ok code
  | none => .error (.valueError ("Unknown key: " ++ k))

/-- `MacOSBackend.key_press` (macos.py lines 206-209): the keycode lookup
error propagates unchanged; on success the injected keycode is returned. -/
def key_press (key : String) : Except GuiError Nat :=
  match get_key_code key with
  | .error e => .error e
  | .ok code => .ok code

/-- `MacOSBackend.key_release` (macos.py lines 211-214). -/
def key_release (key : String) : Except GuiError Nat :=
  match get_key_code key with
  | .error e => .error e
  | .ok code => .ok code

/-- `MacOSBackend.resize_window` (macos.py lines 450-451): unconditionally
raises `BackendCapabilityError("resize_window", "macOS")`. -/
def resize_window (_handle : Nat) (_w _h : Int) : Except GuiError Unit :=
  .error (.backendCapabilityError "resize_window" "macOS")

/-- `MacOSBackend.set_window_state` (macos.py lines 453-454). -/
def set_window_state (_handle : Nat) (_st : WindowState) : Except GuiError Unit :=
  .error (.backendCapabilityError "set_window_state" "macOS")

/-- `MacOSBackend.get_window_state` (macos.py lines 456-457): returns
`WindowState.NORMAL` for every handle; it raises nothing. -/
def get_window_state (_handle : Nat) : Except GuiError WindowState :=
  .ok WindowState.normal

/-- `MacOSBackend.close_window` (macos.py lines 459-460). -/
def close_window (_handle : Nat) : Except GuiError Unit :=
  .error (.backendCapabilityError "close_window" "macOS")

/-- `MacOSBackend.set_window_opacity` (macos.py lines 462-463). -/
def set_window_opacity (_handle : Nat) (_opacity : ℚ) : Except GuiError Unit :=
  .error (.backendCapabilityError "set_window_opacity" "macOS")

/-- `MacOSBackend.set_window_always_on_top` (macos.py lines 465-466). -/
def set_window_always_on_top (_handle : Nat) (_enabled : Bool) : Except GuiError Unit :=
  .error (.backendCapabilityError "set_window_always_on_top" "macOS")

/-- The general `NSPasteboard`, modelled by the string stored for
`NSStringPboardType`: `none` after `clearContents()`, `some t` after
`setString_forType_(t, ...)`. -/
abbrev Pasteboard := Option String

/-- `MacOSBackend.clipboard_get_text` (macos.py lines 468-471):
`text if text else ""`, so both a missing string and a stored empty string
yield `""`. -/
def clipboard_get_text (p : Pasteboard) : String :=
  match p with
  | some t => if t = "" then "" else t
  | none => ""

/-- `MacOSBackend.clipboard_set_text` (macos.py lines 473-476):
`clearContents()` then `setString_forType_(text, NSStringPboardType)` leaves
`text` stored, even when `text` is empty. -/
def clipboard_set_text (text : String) (_p : Pasteboard) : Pasteboard :=
  some text

/-- `MacOSBackend.clipboard_clear` (macos.py lines 478-480): only
`clearContents()`; nothing is stored afterwards. -/
def clipboard_clear (_p : Pasteboard) : Pasteboard :=
  none

/-- `MacOSBackend.clipboard_has_text` (macos.py lines 482-484):
`stringForType_(...) is not None`. -/
def clipboard_has_text (p : Pasteboard) : Bool :=
  p.isSome

end MacOS

namespace X11

/-- One RandR output as `X11Backend.get_displays` reads it: `crtc` is the
CRTC id from `get_output_info` (`0` is falsy in Python and means no active
CRTC), the `crtc*` fields come from `get_crtc_info`, and `mmWidth`/`mmHeight`
are `output_info.mm_width`/`mm_height`, the physical size in millimeters. -/
structure Output where
  crtc : Nat
  name : String
  crtcX : Int
  crtcY : Int
  crtcW : Int
  crtcH : Int
  mmWidth : Int
  mmHeight : Int
deriving DecidableEq

/-- The plain screen record used by the fallback branch of
`X11Backend.get_displays` (x11.py lines 299-316). -/
structure ScreenInfo where
  widthPx : Int
  heightPx : Int
  widthMm : Int
  heightMm : Int
deriving DecidableEq

/-- The platform state `X11Backend.get_displays` reads. `failAt = none` means
the RandR block of x11.py lines 266-298 runs to completion; `failAt = some k`
means a native call raises an exception after the first `k` outputs were
processed (`some 0` also covers `get_screen_resources` itself failing before
the loop). `displays` is declared outside the `try` (line 263), so on an
exception the `except` branch (lines 299-316) appends the fallback display to
the partially built list rather than replacing it. -/
structure DisplayEnv where
  outputs : List Output
  failAt : Option Nat
  screen : ScreenInfo
deriving DecidableEq

/-- x11.py lines 279-298: the `DisplayInfo` built for the output at index `i`
of `resources.outputs`. Scale is hard-coded `1.0`, `physical_size` is the
millimeter size from `output_info`, and `is_primary` is `i == 0`, the index in
the full output list. -/
def displayOf (i : Nat) (o : Output) : DisplayInfo :=
  { id := toString i
    name := o.name
    bounds := ⟨o.crtcX, o.crtcY, o.crtcW, o.crtcH⟩
    work_area := ⟨o.crtcX, o.crtcY, o.crtcW, o.crtcH⟩
    scale := 1
    physical_size := ⟨o.mmWidth, o.mmHeight⟩
    refresh_rate := 60
    rotation := 0
    is_primary := decide (i = 0) }

/-- The `for i, output in enumerate(resources.outputs)` loop of x11.py lines
271-298: outputs without an active CRTC are skipped, the index keeps
counting. -/
def displaysFrom : Nat → List Output → List DisplayInfo
  | _, [] => []
  | i, o :: os =>
      (if o.crtc ≠ 0 then [displayOf i o] else []) ++ displaysFrom (i + 1) os

/-- The fallback display of x11.py lines 299-316, built from the core screen
data with `is_primary=True`. -/
def fallbackDisplay (s : ScreenInfo) : DisplayInfo :=
  { id := "0"
    name := "default"
    bounds := ⟨0, 0, s.widthPx, s.heightPx⟩
    work_area := ⟨0, 0, s.widthPx, s.heightPx⟩
    scale := 1
    physical_size := ⟨s.widthMm, s.heightMm⟩
    refresh_rate := 60
    rotation := 0
    is_primary := true }

/-- `X11Backend.get_displays` (x11.py lines 261-318). When the RandR block
raises after `k` processed outputs, the displays already appended by the loop
stay in the list and the `except` branch appends the fallback display after
them. -/
def get_displays (env : DisplayEnv) : List DisplayInfo :=
  match env.failAt with
  | none => displaysFrom 0 env.outputs
  | some k => displaysFrom 0 (env.outputs.take k) ++ [fallbackDisplay env.screen]

/-- `X11Backend.get_virtual_screen_rect` (x11.py lines 328-339); an empty
enumeration yields the hard-coded `Rect(0, 0, 1920, 1080)`. -/
def get_virtual_screen_rect (env : DisplayEnv) : Rect :=
  match get_displays env with
  | [] => ⟨0, 0, 1920, 1080⟩
  | d :: ds => boundingRect d ds

/-- One window as seen by the `get_window_info` closure of
`X11Backend.list_windows` (x11.py lines 346-404): `queryOk` is whether the
attribute/geometry queries succeed (an exception makes the closure return
`None`), `viewable` is `attrs.map_state == X.IsViewable`, the geometry comes
from `win.get_geometry()`, and the title/class/pid property lookups (which
degrade to defaults on their own) are given by their final values. -/
structure XWinData where
  queryOk : Bool
  viewable : Bool
  x : Int
  y : Int
  w : Int
  h : Int
  title : String
  className : String
  pid : Nat
  handle : Nat
deriving DecidableEq

/-- The `get_window_info` closure (x11.py lines 346-404). There is no filter
on the window size: the rect is the raw server-reported geometry. -/
def window_info_of (visibleOnly : Bool) (d : XWinData) : Option WindowInfo :=
  if ¬ d.queryOk then none
  else if visibleOnly && !d.viewable then none
  else some
    { handle := d.handle
      title := d.title
      class_name := d.className
      pid := d.pid
      process_name := ""
      rect := ⟨d.x, d.y, d.w, d.h⟩
      client_rect := ⟨d.x, d.y, d.w, d.h⟩
      state := WindowState.normal
      is_visible := d.viewable
      is_active := false
      is_always_on_top := false
      opacity := 1 }

/-- `X11Backend.list_windows` (x11.py lines 342-419). The recursive
`traverse` walk over `query_tree()` is modelled by the flat list of windows
it visits, in visit order; each visited window contributes through
`get_window_info`. -/
def list_windows (visibleOnly : Bool) (wins : List XWinData) : List WindowInfo :=
  wins.filterMap (window_info_of visibleOnly)

/-- The key-lookup state of the X11 adapter. `keyCodeMap` is the prebuilt
`_key_code_map` (letters, digits, the named special keys and `f1`-`f12`
that resolved to a non-zero keycode at startup, x11.py lines 30-89);
`stringToKeysym` models `XK.string_to_keysym`, which returns `NoSymbol = 0`
for a name it does not know; `keysymToKeycode` models
`Display.keysym_to_keycode`, which returns `0` — not `None` — for a keysym
bound to no keycode. -/
structure KeyEnv where
  keyCodeMap : String → Option Nat
  stringToKeysym : String → Nat
  keysymToKeycode : Nat → Nat

/-- `X11Backend._get_key_code` (x11.py lines 91-108): lower-case the key and
look it up; on a miss, a single-character key falls back to
`keysym_to_keycode(string_to_keysym(key_str))` — whose result is an integer,
possibly `0`, never `None` — and only a still-`None` keycode raises
`ValueError(f"Unknown key: {key}")` (with the original key). -/
def get_key_code (env : KeyEnv) (key : String) : Except GuiError Nat :=
  let keyStr := pyLower key
  let keycode : Option Nat :=
    match env.keyCodeMap keyStr with
    | some kc => some kc
    | none =>
        if keyStr.length = 1 then some (env.keysymToKeycode (env.stringToKeysym keyStr))
        else none
  match keycode with
  | none => .error (.valueError ("Unknown key: " ++ key))
  | some kc => .ok kc

/-- `X11Backend.key_press` (x11.py lines 214-218): the lookup error
propagates unchanged; on success the keycode handed to `fake_input` is
returned. -/
def key_press (env : KeyEnv) (key : String) : Except GuiError Nat :=
  match get_key_code env key with
  | .error e => .error e
  | .ok kc => .ok kc

/-- `X11Backend.key_release` (x11.py lines 220-224). -/
def key_release (env : KeyEnv) (key : String) : Except GuiError Nat :=
  match get_key_code env key with
  | .error e => .error e
  | .ok kc => .ok kc

/-- `X11Backend.key_type_unicode` (x11.py lines 237-252). A string of pure
ASCII characters is typed character by character, each `key_press` wrapped in
`try ... except ValueError: pass`, so unmapped characters are silently
skipped; the returned list holds the keycodes actually injected. A string
with any non-ASCII character (`ord(c) >= 128`) raises
`NotImplementedError("Unicode typing not yet implemented for X11")`. -/
def key_type_unicode (env : KeyEnv) (text : String) : Except GuiError (List Nat) :=
  if text.toList.all (fun c => decide (c.toNat < 128)) then
    .ok (text.toList.filterMap fun c =>
      match get_key_code env (String.singleton c) with
      | .ok kc => some kc
      | .error _ => none)
  else
    .error (.notImplementedError "Unicode typing not yet implemented for X11")

/-- The CLIPBOARD selection as `X11Backend`'s clipboard methods observe it:
`none` models `get_selection_owner(...) == X.NONE` (no owner), `some t`
models an owner that answers a conversion request with `t`. -/
structure ClipState where
  ownerContent : Option String
deriving DecidableEq

/-- `X11Backend.clipboard_get_text` (x11.py lines 573-630). With no selection
owner the function returns `""` at line 583, before any conversion request or
waiting. With an owner, the negotiated content is returned (an owner
delivering empty bytes falls through to `return ""` at line 627, which for
the empty string is the same value); no branch raises. -/
def clipboard_get_text (s : ClipState) : Except GuiError String :=
  match s.ownerContent with
  | none => .ok ""
  | some t => .ok t

/-- `X11Backend.clipboard_set_text` (x11.py lines 632-677): the adapter's
window takes ownership of CLIPBOARD and serves `text`. -/
def clipboard_set_text (text : String) (_s : ClipState) : ClipState :=
  { ownerContent := some text }

/-- `X11Backend.clipboard_clear` (x11.py lines 721-723): literally
`self.clipboard_set_text("")`. -/
def clipboard_clear (s : ClipState) : ClipState :=
  clipboard_set_text "" s

/-- `X11Backend.clipboard_has_text` (x11.py lines 725-731):
`len(clipboard_get_text()) > 0`, with any exception mapped to `False`. -/
def clipboard_has_text (s : ClipState) : Bool :=
  match clipboard_get_text s with
  | .ok t => decide (0 < t.length)
  | .error _ => false

end X11

/-! Concrete platform states used to evaluate the adapters in the theorems
below. -/

/-- One active CoreGraphics display whose id is the main display id. -/
def macEnv1W : MacOS.MacEnv :=
  { err := false
    activeDisplays := [⟨7, 0, 0, 1440, 900, 60⟩]
    mainDisplayID := 7
    screens := [] }

/-- A single RandR output with an active CRTC. -/
def out1X : X11.Output := ⟨3, "eDP-1", 0, 0, 1366, 768, 310, 174⟩

def env1X : X11.DisplayEnv := ⟨[out1X], none, ⟨0, 0, 0, 0⟩⟩

/-- A RandR state whose first output has no active CRTC while the second one
does; the block completes without an exception. -/
def env1C : X11.DisplayEnv :=
  ⟨[⟨0, "DP-1", 0, 0, 0, 0, 0, 0⟩, ⟨5, "HDMI-1", 0, 0, 1920, 1080, 597, 336⟩],
   none, ⟨0, 0, 0, 0⟩⟩

/-- A RandR state where the first output (active CRTC, hence primary) is
processed and a native call then raises at the second output, so the fallback
display is appended to the partial list. -/
def env1F : X11.DisplayEnv :=
  ⟨[⟨4, "eDP-1", 0, 0, 1366, 768, 310, 174⟩,
    ⟨9, "HDMI-1", 0, 0, 1920, 1080, 597, 336⟩],
   some 1, ⟨1366, 768, 310, 174⟩⟩

def md2W : MacOS.MacDisplay := ⟨1, 0, 0, 1440, 900, 60⟩

/-- One display with a matching `NSScreen` of backing scale factor 2. -/
def macEnv2W : MacOS.MacEnv := ⟨false, [md2W], 1, [⟨0, 0, 2⟩]⟩

def dW2 : DisplayInfo := MacOS.mkDisplay macEnv2W 0 md2W

/-- A 1920x1080 CRTC on an output whose physical size is 597mm x 336mm. -/
def out2C : X11.Output := ⟨1, "HDMI-1", 0, 0, 1920, 1080, 597, 336⟩

def env2C : X11.DisplayEnv := ⟨[out2C], none, ⟨0, 0, 0, 0⟩⟩

def md3W : MacOS.MacDisplay := ⟨1, 0, 0, 1440, 900, 60⟩

def macEnv3W : MacOS.MacEnv := ⟨false, [md3W], 1, []⟩

def dW3 : DisplayInfo := MacOS.mkDisplay macEnv3W 0 md3W

def out3X : X11.Output := ⟨2, "HDMI-1", 100, 50, 1280, 720, 400, 225⟩

def env3X : X11.DisplayEnv := ⟨[out3X], none, ⟨0, 0, 0, 0⟩⟩

def dX3 : DisplayInfo := X11.displayOf 0 out3X

/-- A viewable 800x600 X11 window. -/
def xw4 : X11.XWinData := ⟨true, true, 10, 20, 800, 600, "term", "Term", 12, 42⟩

/-- The `WindowInfo` `X11Backend.list_windows` builds for `xw4`. -/
def wiX4 : WindowInfo :=
  ⟨42, "term", "Term", 12, "", ⟨10, 20, 800, 600⟩, ⟨10, 20, 800, 600⟩,
   WindowState.normal, true, false, false, 1⟩

/-- An on-screen 300x200 CoreGraphics window. -/
def cgw4 : MacOS.CGWindow := ⟨"Finder", "w1", 5, 9, 10, 20, 300, 200, 0, true, 1⟩

/-- The `WindowInfo` `MacOSBackend.list_windows` builds for `cgw4`. -/
def wiM4 : WindowInfo :=
  ⟨5, "w1", "Finder", 9, "Finder", ⟨10, 20, 300, 200⟩, ⟨10, 20, 300, 200⟩,
   WindowState.normal, true, false, false, 1⟩

/-- A viewable X11 window whose server-reported geometry is 0x0. -/
def xw4C : X11.XWinData := ⟨true, true, 0, 0, 0, 0, "", "", 0, 7⟩

/-- An X11 key state: `a` and `space` resolved at startup, `string_to_keysym`
knows no further names (returns `NoSymbol = 0`) and keysym `0` is bound to no
keycode (`keysym_to_keycode` returns `0`) — the values python-xlib actually
produces for a name such as `"!"`. -/
def keyEnv7 : X11.KeyEnv :=
  { keyCodeMap := fun s => if s = "a" then some 38 else if s = "space" then some 65 else none
    stringToKeysym := fun _ => 0
    keysymToKeycode := fun _ => 0 }

/-- Same shape of key state as `keyEnv7`, used for the typing claims. -/
def keyEnv8 : X11.KeyEnv :=
  { keyCodeMap := fun s => if s = "a" then some 38 else none
    stringToKeysym := fun _ => 0
    keysymToKeycode := fun _ => 0 }

/-! Helper lemmas. -/

theorem pyInt_intCast (n : ℤ) : pyInt ((n : ℚ)) = n := by
  unfold pyInt
  rcases le_or_lt 0 ((n : ℚ)) with h | h
  · rw [if_pos h, Int.floor_intCast]
  · rw [if_neg (not_le.mpr h), Int.ceil_intCast]

theorem pyInt_cast_of_den_one {q : ℚ} (h : q.den = 1) : ((pyInt q : ℤ) : ℚ) = q := by
  have hq : ((q.num : ℚ)) = q := (Rat.den_eq_one_iff q).mp h
  rw [← hq, pyInt_intCast]

theorem foldl_min_le_init (l : List Int) (a : Int) : l.foldl min a ≤ a := by
  induction l generalizing a with
  | nil => exact le_refl a
  | cons x xs ih => exact le_trans (ih (min a x)) (min_le_left a x)

theorem foldl_min_le_of_mem :
    ∀ (l : List Int) (x : Int), x ∈ l → ∀ a, l.foldl min a ≤ x := by
  intro l
  induction l with
  | nil => intro x hx; cases hx
  | cons y ys ih =>
    intro x hx a
    rcases List.mem_cons.mp hx with rfl | h
    · exact le_trans (foldl_min_le_init ys (min a x)) (min_le_right a x)
    · exact ih x h (min a y)

theorem le_foldl_max_init (l : List Int) (a : Int) : a ≤ l.foldl max a := by
  induction l generalizing a with
  | nil => exact le_refl a
  | cons x xs ih => exact le_trans (le_max_left a x) (ih (max a x))

theorem le_foldl_max_of_mem :
    ∀ (l : List Int) (x : Int), x ∈ l → ∀ a, x ≤ l.foldl max a := by
  intro l
  induction l with
  | nil => intro x hx; cases hx
  | cons y ys ih =>
    intro x hx a
    rcases List.mem_cons.mp hx with rfl | h
    · exact le_trans (le_max_right a x) (le_foldl_max_init ys (max a x))
    · exact ih x h (max a y)

theorem boundingRect_contains {d e : DisplayInfo} {ds : List DisplayInfo}
    (he : e ∈ d :: ds) : rectContainsRect (boundingRect d ds) e.bounds := by
  have hxmin : ((ds.map fun v => v.bounds.x).foldl min d.bounds.x) ≤ e.bounds.x := by
    rcases List.mem_cons.mp he with rfl | h
    · exact foldl_min_le_init _ _
    · exact foldl_min_le_of_mem _ _ (List.mem_map_of_mem _ h) _
  have hymin : ((ds.map fun v => v.bounds.y).foldl min d.bounds.y) ≤ e.bounds.y := by
    rcases List.mem_cons.mp he with rfl | h
    · exact foldl_min_le_init _ _
    · exact foldl_min_le_of_mem _ _ (List.mem_map_of_mem _ h) _
  have hxmax : e.bounds.x + e.bounds.width ≤
      ((ds.map fun v => v.bounds.x + v.bounds.width).foldl max
        (d.bounds.x + d.bounds.width)) := by
    rcases List.mem_cons.mp he with rfl | h
    · exact le_foldl_max_init _ _
    · exact le_foldl_max_of_mem _ _ (List.mem_map_of_mem _ h) _
  have hymax : e.bounds.y + e.bounds.height ≤
      ((ds.map fun v => v.bounds.y + v.bounds.height).foldl max
        (d.bounds.y + d.bounds.height)) := by
    rcases List.mem_cons.mp he with rfl | h
    · exact le_foldl_max_init _ _
    · exact le_foldl_max_of_mem _ _ (List.mem_map_of_mem _ h) _
  simp only [boundingRect, rectContainsRect]
  refine ⟨hxmin, hymin, by omega, by omega⟩

theorem MacOS.mem_mac_displaysFrom {env : MacOS.MacEnv} {d : DisplayInfo} :
    ∀ {i : Nat} {l : List MacOS.MacDisplay}, d ∈ MacOS.displaysFrom env i l →
      ∃ j md, md ∈ l ∧ d = MacOS.mkDisplay env j md := by
  intro i l
  induction l generalizing i with
  | nil => intro h; simp [MacOS.displaysFrom] at h
  | cons md rest ih =>
    intro h
    rcases List.mem_cons.mp h with h1 | h2
    · exact ⟨i, md, List.mem_cons_self md rest, h1⟩
    · obtain ⟨j, md', hmem, hd⟩ := ih h2
      exact ⟨j, md', List.mem_cons_of_mem _ hmem, hd⟩

theorem MacOS.countP_displaysFrom (env : MacOS.MacEnv) :
    ∀ (l : List MacOS.MacDisplay) (i : Nat),
      (MacOS.displaysFrom env i l).countP (fun d => d.is_primary) =
        l.countP (fun md => decide (md.id = env.mainDisplayID)) := by
  intro l
  induction l with
  | nil => intro i; rfl
  | cons md rest ih =>
    intro i
    simp only [MacOS.displaysFrom, List.countP_cons, ih (i + 1), MacOS.mkDisplay]

theorem X11.countP_displaysFrom_of_ne_zero :
    ∀ (os : List X11.Output) (n : Nat), n ≠ 0 →
      (X11.displaysFrom n os).countP (fun d => d.is_primary) = 0 := by
  intro os
  induction os with
  | nil => intro n _; rfl
  | cons o rest ih =>
    intro n hn
    by_cases hc : o.crtc ≠ 0
    · simp [X11.displaysFrom, hc, X11.displayOf, ih (n + 1) (Nat.succ_ne_zero n), hn]
    · simp [X11.displaysFrom, hc, ih (n + 1) (Nat.succ_ne_zero n)]

theorem X11.mem_x11_displaysFrom {d : DisplayInfo} :
    ∀ (os : List X11.Output) (n : Nat), d ∈ X11.displaysFrom n os →
      ∃ o ∈ os, o.crtc ≠ 0 ∧ ∃ i, d = X11.displayOf i o := by
  intro os
  induction os with
  | nil => intro n h; simp [X11.displaysFrom] at h
  | cons o rest ih =>
    intro n h
    rw [X11.displaysFrom, List.mem_append] at h
    rcases h with h1 | h2
    · by_cases hc : o.crtc ≠ 0
      · rw [if_pos hc, List.mem_singleton] at h1
        exact ⟨o, List.mem_cons_self o rest, hc, n, h1⟩
      · rw [if_neg hc] at h1
        cases h1
    · obtain ⟨o', ho', hc', i, hd⟩ := ih (n + 1) h2
      exact ⟨o', List.mem_cons_of_mem _ ho', hc', i, hd⟩

/-! The claims. -/

/-- C1 (amended): on macOS the number of primary displays equals the number
of active displays whose id is the main display id — exactly one whenever the
main display is enumerated exactly once. On X11, exactly one primary holds
when the RandR block completes and the first output has an active CRTC, when
it raises before any output was processed (pure fallback), and when it raises
later while the first output has no active CRTC; but when it raises after the
first output — active, hence primary — was already emitted, the `except`
branch appends the fallback (also primary) to the partially built list and
the enumeration holds two primaries, and when it completes with the first
output lacking an active CRTC the non-empty list holds none (see the
counterexample). -/
theorem exactly_one_primary_display_amended :
    (∀ env : MacOS.MacEnv, env.err = false →
      env.activeDisplays.countP (fun md => decide (md.id = env.mainDisplayID)) = 1 →
      (MacOS.get_displays env).countP (fun d => d.is_primary) = 1)
    ∧ (∀ env : X11.DisplayEnv, env.failAt = none →
        ∀ o os, env.outputs = o :: os → o.crtc ≠ 0 →
        (X11.get_displays env).countP (fun d => d.is_primary) = 1)
    ∧ (∀ env : X11.DisplayEnv, env.failAt = some 0 →
        (X11.get_displays env).countP (fun d => d.is_primary) = 1)
    ∧ (∀ (env : X11.DisplayEnv) (k : Nat), env.failAt = some (k + 1) →
        ∀ o os, env.outputs = o :: os → o.crtc = 0 →
        (X11.get_displays env).countP (fun d => d.is_primary) = 1)
    ∧ (∀ (env : X11.DisplayEnv) (k : Nat), env.failAt = some (k + 1) →
        ∀ o os, env.outputs = o :: os → o.crtc ≠ 0 →
        (X11.get_displays env).countP (fun d => d.is_primary) = 2) := by
  refine ⟨?_, ?_, ?_, ?_, ?_⟩
  · intro env herr hcount
    rw [MacOS.get_displays, if_neg (by simp [herr]), MacOS.countP_displaysFrom]
    exact hcount
  · intro env hfail o os houts hcrtc
    simp only [X11.get_displays, hfail, houts]
    simp [X11.displaysFrom, hcrtc, X11.displayOf,
      X11.countP_displaysFrom_of_ne_zero os 1 one_ne_zero]
  · intro env hfail
    simp only [X11.get_displays, hfail]
    rfl
  · intro env k hfail o os houts hcrtc0
    simp only [X11.get_displays, hfail, houts, List.take_succ_cons]
    simp [X11.displaysFrom, hcrtc0, List.countP_append, List.countP_cons,
      X11.countP_displaysFrom_of_ne_zero (os.take k) 1 one_ne_zero,
      X11.fallbackDisplay]
  · intro env k hfail o os houts hcrtc
    simp only [X11.get_displays, hfail, houts, List.take_succ_cons]
    simp [X11.displaysFrom, hcrtc, X11.displayOf, List.countP_append,
      List.countP_cons,
      X11.countP_displaysFrom_of_ne_zero (os.take k) 1 one_ne_zero,
      X11.fallbackDisplay]

/-- Witness for C1: the amended theorem evaluated on concrete environments —
the macOS part, the completed-RandR part, and the mid-loop-failure part that
yields two primaries. -/
theorem exactly_one_primary_display_amended_witness :
    macEnv1W.err = false
    ∧ macEnv1W.activeDisplays.countP
        (fun md => decide (md.id = macEnv1W.mainDisplayID)) = 1
    ∧ (MacOS.get_displays macEnv1W).countP (fun d => d.is_primary) = 1
    ∧ (env1X.failAt = none ∧ env1X.outputs = out1X :: [] ∧ out1X.crtc ≠ 0)
    ∧ (X11.get_displays env1X).countP (fun d => d.is_primary) = 1
    ∧ env1F.failAt = some 1
    ∧ (X11.get_displays env1F).countP (fun d => d.is_primary) = 2 :=
  ⟨rfl, by decide,
   exactly_one_primary_display_amended.1 macEnv1W rfl (by decide),
   ⟨rfl, rfl, by decide⟩,
   exactly_one_primary_display_amended.2.1 env1X rfl out1X [] rfl (by decide),
   rfl,
   exactly_one_primary_display_amended.2.2.2.2 env1F 0 rfl _ _ rfl (by decide)⟩

/-- C1 counterexample: when the first RandR output has no active CRTC,
`X11Backend.get_displays` returns a non-empty display list in which no
display is primary, refuting "exactly one `is_primary == true`". -/
theorem x11_skipped_first_output_no_primary :
    (X11.get_displays env1C).length = 1
    ∧ (X11.get_displays env1C).countP (fun d => d.is_primary) = 0 := by
  exact ⟨rfl, rfl⟩

/-- C2 (amended): on macOS `physical_size` equals
`(int(bounds.width * scale), int(bounds.height * scale))` whenever the raw
CoreGraphics bounds are whole numbers; on the X11 RandR path `physical_size`
is the output's physical size in millimeters (with scale hard-coded 1.0), and
the fallback display — alone when the block fails before any output, appended
to the partial list when it fails mid-loop — carries the core screen's
millimeter size. In every X11 case it is not `bounds * scale`: see the
counterexample. -/
theorem physical_size_amended :
    (∀ env : MacOS.MacEnv,
      (∀ md ∈ env.activeDisplays, md.boundsW.den = 1 ∧ md.boundsH.den = 1) →
      ∀ d ∈ MacOS.get_displays env,
        d.physical_size.width = pyInt ((d.bounds.width : ℚ) * d.scale) ∧
        d.physical_size.height = pyInt ((d.bounds.height : ℚ) * d.scale))
    ∧ (∀ (n : Nat) (os : List X11.Output), ∀ d ∈ X11.displaysFrom n os,
        ∃ o ∈ os, o.crtc ≠ 0 ∧ d.scale = 1 ∧
          d.physical_size.width = o.mmWidth ∧ d.physical_size.height = o.mmHeight)
    ∧ (∀ env : X11.DisplayEnv, env.failAt = some 0 →
        ∀ d ∈ X11.get_displays env,
          d.physical_size.width = env.screen.widthMm ∧
          d.physical_size.height = env.screen.heightMm)
    ∧ (∀ env : X11.DisplayEnv, ∀ d ∈ X11.get_displays env,
        (∃ o ∈ env.outputs, o.crtc ≠ 0 ∧ d.scale = 1 ∧
          d.physical_size.width = o.mmWidth ∧ d.physical_size.height = o.mmHeight)
        ∨ (d.scale = 1 ∧ d.physical_size.width = env.screen.widthMm ∧
            d.physical_size.height = env.screen.heightMm)) := by
  refine ⟨?_, ?_, ?_, ?_⟩
  · intro env hden d hd
    rw [MacOS.get_displays] at hd
    by_cases herr : env.err
    · rw [if_pos (by simp [herr])] at hd
      cases hd
    · rw [if_neg (by simp [herr])] at hd
      obtain ⟨j, md, hmd, rfl⟩ := MacOS.mem_mac_displaysFrom hd
      obtain ⟨hw, hh⟩ := hden md hmd
      simp only [MacOS.mkDisplay]
      constructor
      · rw [pyInt_cast_of_den_one hw]
      · rw [pyInt_cast_of_den_one hh]
  · intro n os d hd
    obtain ⟨o, ho, hc, i, rfl⟩ := X11.mem_x11_displaysFrom os n hd
    exact ⟨o, ho, hc, rfl, rfl, rfl⟩
  · intro env hfail d hd
    have hd' : d ∈ X11.displaysFrom 0 (env.outputs.take 0) ++
        [X11.fallbackDisplay env.screen] := by
      rw [X11.get_displays, hfail] at hd
      exact hd
    rw [show env.outputs.take 0 = [] from rfl] at hd'
    rw [show X11.displaysFrom 0 [] = [] from rfl, List.nil_append,
      List.mem_singleton] at hd'
    subst hd'
    exact ⟨rfl, rfl⟩
  · intro env d hd
    rcases hfail : env.failAt with _ | k
    · have hd' : d ∈ X11.displaysFrom 0 env.outputs := by
        rw [X11.get_displays, hfail] at hd
        exact hd
      obtain ⟨o, ho, hc, i, rfl⟩ := X11.mem_x11_displaysFrom env.outputs 0 hd'
      exact Or.inl ⟨o, ho, hc, rfl, rfl, rfl⟩
    · have hd' : d ∈ X11.displaysFrom 0 (env.outputs.take k) ++
          [X11.fallbackDisplay env.screen] := by
        rw [X11.get_displays, hfail] at hd
        exact hd
      rcases List.mem_append.mp hd' with h1 | h2
      · obtain ⟨o, ho, hc, i, rfl⟩ := X11.mem_x11_displaysFrom _ 0 h1
        exact Or.inl ⟨o, List.take_subset _ _ ho, hc, rfl, rfl, rfl⟩
      · rw [List.mem_singleton] at h2
        subst h2
        exact Or.inr ⟨rfl, rfl, rfl⟩

/-- Witness for C2: the macOS part of the amended theorem evaluated on a
concrete display with whole-number bounds and backing scale factor 2. -/
theorem physical_size_amended_witness :
    md2W.boundsW.den = 1 ∧ md2W.boundsH.den = 1
    ∧ dW2 ∈ MacOS.get_displays macEnv2W
    ∧ dW2.physical_size.width = pyInt ((dW2.bounds.width : ℚ) * dW2.scale)
    ∧ dW2.physical_size.height = pyInt ((dW2.bounds.height : ℚ) * dW2.scale) := by
  have hmem : dW2 ∈ MacOS.get_displays macEnv2W := List.mem_singleton_self dW2
  have h := physical_size_amended.1 macEnv2W
    (by
      intro md hmd
      rw [show macEnv2W.activeDisplays = [md2W] from rfl, List.mem_singleton] at hmd
      subst hmd
      exact ⟨by decide, by decide⟩)
    dW2 hmem
  exact ⟨by decide, by decide, hmem, h.1, h.2⟩

/-- C2 counterexample: for a 1920-pixel-wide X11 CRTC on an output reporting
597mm, the enumerated display has `physical_size.width = 597` while
`int(bounds.width * scale) = 1920`. -/
theorem x11_physical_size_is_millimeters :
    X11.get_displays env2C = [X11.displayOf 0 out2C]
    ∧ (X11.displayOf 0 out2C).physical_size.width = 597
    ∧ (X11.displayOf 0 out2C).bounds.width = 1920
    ∧ (X11.displayOf 0 out2C).scale = 1
    ∧ (X11.displayOf 0 out2C).physical_size.width ≠
        pyInt (((X11.displayOf 0 out2C).bounds.width : ℚ) *
          (X11.displayOf 0 out2C).scale) := by
  have hp : pyInt (((X11.displayOf 0 out2C).bounds.width : ℚ) *
      (X11.displayOf 0 out2C).scale) = 1920 := by
    show pyInt (((1920 : Int) : ℚ) * 1) = 1920
    rw [mul_one, pyInt_intCast]
  refine ⟨rfl, rfl, rfl, rfl, ?_⟩
  rw [hp]
  decide

/-- C3 (confirmed): on both adapters, whenever the enumeration is non-empty,
the rectangle `get_virtual_screen_rect` computes contains every enumerated
display's bounds entirely: `rect.x ≤ bounds.x`, `rect.y ≤ bounds.y`,
`bounds.x + bounds.width ≤ rect.x + rect.width` and
`bounds.y + bounds.height ≤ rect.y + rect.height`. -/
theorem virtual_screen_rect_contains_displays :
    (∀ env : MacOS.MacEnv, MacOS.get_displays env ≠ [] →
      ∀ d ∈ MacOS.get_displays env,
        rectContainsRect (MacOS.get_virtual_screen_rect env) d.bounds)
    ∧ (∀ env : X11.DisplayEnv, X11.get_displays env ≠ [] →
        ∀ d ∈ X11.get_displays env,
          rectContainsRect (X11.get_virtual_screen_rect env) d.bounds) := by
  constructor
  · intro env hne d hd
    rcases h : MacOS.get_displays env with _ | ⟨d0, ds⟩
    · exact absurd h hne
    · rw [h] at hd
      rw [MacOS.get_virtual_screen_rect, h]
      exact boundingRect_contains hd
  · intro env hne d hd
    rcases h : X11.get_displays env with _ | ⟨d0, ds⟩
    · exact absurd h hne
    · rw [h] at hd
      rw [X11.get_virtual_screen_rect, h]
      exact boundingRect_contains hd

/-- Witness for C3: the theorem evaluated on concrete single-display
environments for both adapters. -/
theorem virtual_screen_rect_contains_displays_witness :
    MacOS.get_displays macEnv3W ≠ []
    ∧ rectContainsRect (MacOS.get_virtual_screen_rect macEnv3W) dW3.bounds
    ∧ X11.get_displays env3X ≠ []
    ∧ rectContainsRect (X11.get_virtual_screen_rect env3X) dX3.bounds := by
  have hmemM : dW3 ∈ MacOS.get_displays macEnv3W := List.mem_singleton_self dW3
  have hmemX : dX3 ∈ X11.get_displays env3X := by decide
  have hneM : MacOS.get_displays macEnv3W ≠ [] := List.cons_ne_nil dW3 []
  have hneX : X11.get_displays env3X ≠ [] := by decide
  exact ⟨hneM,
    virtual_screen_rect_contains_displays.1 macEnv3W hneM dW3 hmemM,
    hneX,
    virtual_screen_rect_contains_displays.2 env3X hneX dX3 hmemX⟩

/-- C4 (amended): on macOS, enumeration skips each window whose reported
width or height is exactly 0, so whenever CoreGraphics reports nonnegative
sizes every returned `WindowInfo` has positive `rect` sizes; on X11 no size
filter exists at all — the rect is the raw server geometry, so positive
sizes hold only under the hypothesis that the server reports positive
geometry for every window. As frozen ("on any adapter", unconditionally),
the claim fails: see the counterexample. -/
theorem window_enumeration_positive_size_amended :
    (∀ (vo : Bool) (wl : List MacOS.CGWindow),
      (∀ w ∈ wl, 0 ≤ w.width ∧ 0 ≤ w.height) →
      ∀ wi ∈ MacOS.list_windows vo wl, 0 < wi.rect.width ∧ 0 < wi.rect.height)
    ∧ (∀ (vo : Bool) (wins : List X11.XWinData),
        (∀ d ∈ wins, 0 < d.w ∧ 0 < d.h) →
        ∀ wi ∈ X11.list_windows vo wins,
          0 < wi.rect.width ∧ 0 < wi.rect.height) := by
  constructor
  · intro vo wl hpos wi hwi
    rw [MacOS.list_windows] at hwi
    simp only [List.mem_filterMap] at hwi
    obtain ⟨w, hw, hf⟩ := hwi
    have hwmem : w ∈ wl := by
      rcases vo with _ | _
      · simpa using hw
      · exact List.mem_of_mem_filter (by simpa using hw)
    obtain ⟨h0w, h0h⟩ := hpos w hwmem
    by_cases hz : w.width = 0 ∨ w.height = 0
    · rw [if_pos hz] at hf
      cases hf
    · rw [if_neg hz] at hf
      cases hf
      push_neg at hz
      constructor <;> simp <;> omega
  · intro vo wins hpos wi hwi
    rw [X11.list_windows] at hwi
    simp only [List.mem_filterMap] at hwi
    obtain ⟨d, hd, hf⟩ := hwi
    obtain ⟨h0w, h0h⟩ := hpos d hd
    rw [X11.window_info_of] at hf
    by_cases hq : ¬ d.queryOk
    · rw [if_pos hq] at hf
      cases hf
    · rw [if_neg hq] at hf
      by_cases hv : vo && !d.viewable
      · rw [if_pos hv] at hf
        cases hf
      · rw [if_neg hv] at hf
        cases hf
        exact ⟨h0w, h0h⟩

/-- Witness for C4: the amended theorem evaluated on concrete one-window
environments for both adapters. -/
theorem window_enumeration_positive_size_amended_witness :
    (0 ≤ cgw4.width ∧ 0 ≤ cgw4.height)
    ∧ wiM4 ∈ MacOS.list_windows true [cgw4]
    ∧ (0 < wiM4.rect.width ∧ 0 < wiM4.rect.height)
    ∧ (0 < xw4.w ∧ 0 < xw4.h)
    ∧ wiX4 ∈ X11.list_windows true [xw4]
    ∧ (0 < wiX4.rect.width ∧ 0 < wiX4.rect.height) := by
  have hmemM : wiM4 ∈ MacOS.list_windows true [cgw4] := by decide
  have hmemX : wiX4 ∈ X11.list_windows true [xw4] := by decide
  have hM := window_enumeration_positive_size_amended.1 true [cgw4]
    (by decide) wiM4 hmemM
  have hX := window_enumeration_positive_size_amended.2 true [xw4]
    (by decide) wiX4 hmemX
  exact ⟨by decide, hmemM, hM, by decide, hmemX, hX⟩

/-- C4 counterexample: a viewable X11 window whose server-reported geometry
is 0x0 passes through `X11Backend.list_windows` unfiltered, so the returned
list contains a `WindowInfo` with `rect.width = 0` and `rect.height = 0`. -/
theorem x11_zero_size_window_enumerated :
    (X11.list_windows true [xw4C]).length = 1
    ∧ ((X11.list_windows true [xw4C]).all fun wi =>
        decide ((0 : Int) < wi.rect.width) && decide ((0 : Int) < wi.rect.height)) =
      false := by
  exact ⟨rfl, rfl⟩

/-- C5 (amended): on X11, `clipboard_clear` is literally
`clipboard_set_text("")`, so the two are equivalent there; on macOS the two
calls agree on `clipboard_get_text` (both yield `""`) but are observably
different through `clipboard_has_text`: after `clipboard_clear` the
pasteboard holds no string and `clipboard_has_text` is `false`, while after
`clipboard_set_text("")` it holds the empty string and `clipboard_has_text`
is `true`. -/
theorem clipboard_clear_set_text_amended :
    (∀ s : X11.ClipState, X11.clipboard_clear s = X11.clipboard_set_text "" s)
    ∧ (∀ p : MacOS.Pasteboard,
        MacOS.clipboard_get_text (MacOS.clipboard_clear p) =
          MacOS.clipboard_get_text (MacOS.clipboard_set_text "" p))
    ∧ (∀ p : MacOS.Pasteboard,
        MacOS.clipboard_has_text (MacOS.clipboard_clear p) = false)
    ∧ (∀ p : MacOS.Pasteboard,
        MacOS.clipboard_has_text (MacOS.clipboard_set_text "" p) = true) :=
  ⟨fun _ => rfl, fun _ => rfl, fun _ => rfl, fun _ => rfl⟩

/-- C5 counterexample: starting from a pasteboard holding `"test"`, the macOS
adapter's `clipboard_clear` and `clipboard_set_text("")` leave observably
different clipboard states: `clipboard_has_text` answers `false` after the
former and `true` after the latter. -/
theorem macos_clear_set_text_observably_differ :
    MacOS.clipboard_has_text (MacOS.clipboard_clear (some "test")) = false
    ∧ MacOS.clipboard_has_text (MacOS.clipboard_set_text "" (some "test")) = true
    ∧ MacOS.clipboard_has_text (MacOS.clipboard_clear (some "test")) ≠
        MacOS.clipboard_has_text (MacOS.clipboard_set_text "" (some "test")) := by
  exact ⟨rfl, rfl, by decide⟩

/-- C6 (code-bug evidence): `MacOSBackend.mouse_press` and `mouse_release`
do raise `ValueError("Unsupported button: ...")` for X1/X2, but
`mouse_is_pressed` has no unsupported-button path at all — for X1/X2 it hands
`button.value` to `CGEventSourceButtonState` and returns the native boolean,
never raising, although the repository's own tests
(`test_mouse_is_pressed_unsupported_button_x1`/`_x2`) assert the
`ValueError`. -/
theorem macos_mouse_is_pressed_never_raises :
    MacOS.mouse_press MouseButton.x1 =
      Except.error (GuiError.valueError "Unsupported button: MouseButton.X1")
    ∧ MacOS.mouse_press MouseButton.x2 =
      Except.error (GuiError.valueError "Unsupported button: MouseButton.X2")
    ∧ MacOS.mouse_release MouseButton.x1 =
      Except.error (GuiError.valueError "Unsupported button: MouseButton.X1")
    ∧ MacOS.mouse_release MouseButton.x2 =
      Except.error (GuiError.valueError "Unsupported button: MouseButton.X2")
    ∧ (∀ st : MouseButton → Bool,
        MacOS.mouse_is_pressed st MouseButton.x1 = Except.ok (st MouseButton.x1))
    ∧ (∀ st : MouseButton → Bool,
        MacOS.mouse_is_pressed st MouseButton.x2 = Except.ok (st MouseButton.x2)) :=
  ⟨rfl, rfl, rfl, rfl, fun _ => rfl, fun _ => rfl⟩

/-- C7 (code-bug evidence): the macOS key lookup does raise
`ValueError("Unknown key: ...")` for an unmapped key, but on X11 an unmapped
single-character key does not: python-xlib's `keysym_to_keycode` returns the
integer `0` (not `None`) for an unbound keysym, so the `if keycode is None`
guard of `_get_key_code` never fires on the single-character fallback path
and `key_press` injects an event with the invalid keycode 0 instead of
raising. -/
theorem unknown_key_propagation_bug :
    MacOS.key_press "Invalid_Key_XYZ" =
      Except.error (GuiError.valueError "Unknown key: invalid_key_xyz")
    ∧ (∀ env : X11.KeyEnv, env.keyCodeMap "!" = none →
        env.stringToKeysym "!" = 0 → env.keysymToKeycode 0 = 0 →
        X11.key_press env "!" = Except.ok 0) := by
  constructor
  · rfl
  · intro env h1 h2 h3
    have e1 : env.keyCodeMap (pyLower "!") = none := by
      rw [show pyLower "!" = "!" from rfl, h1]
    have e2 : env.keysymToKeycode (env.stringToKeysym (pyLower "!")) = 0 := by
      rw [show pyLower "!" = "!" from rfl, h2, h3]
    simp only [X11.key_press, X11.get_key_code, e1, e2]
    rfl

/-- Witness for C7: the theorem's X11 part evaluated on a concrete key state
with the lookup results python-xlib produces for `"!"`. -/
theorem unknown_key_propagation_bug_witness :
    keyEnv7.keyCodeMap "!" = none
    ∧ keyEnv7.stringToKeysym "!" = 0
    ∧ keyEnv7.keysymToKeycode 0 = 0
    ∧ X11.key_press keyEnv7 "!" = Except.ok 0 :=
  ⟨by decide, rfl, rfl,
   unknown_key_propagation_bug.2 keyEnv7 (by decide) rfl rfl⟩

/-- C8 (amended): on X11, `key_type_unicode` raises `NotImplementedError`
exactly for texts containing a non-ASCII character (`ord(c) >= 128`); ASCII
characters without a key-code mapping do not make the operation fail — they
are silently skipped (or injected through the keycode-0 fallback) by the
`except ValueError: pass` in the per-character loop; the empty string raises
nothing. As frozen ("every character without a direct key-code mapping"),
the claim fails on unmapped ASCII characters: see the counterexample. -/
theorem key_type_unicode_not_implemented_amended :
    (∀ (env : X11.KeyEnv) (text : String), (∃ c ∈ text.toList, 128 ≤ c.toNat) →
      X11.key_type_unicode env text =
        Except.error (GuiError.notImplementedError
          "Unicode typing not yet implemented for X11"))
    ∧ (∀ env : X11.KeyEnv, X11.key_type_unicode env "" = Except.ok []) := by
  constructor
  · intro env text hx
    have hna : ¬ (text.toList.all (fun c => decide (c.toNat < 128)) = true) := by
      intro hall
      obtain ⟨c, hc, h128⟩ := hx
      have h2 := List.all_eq_true.mp hall c hc
      simp only [decide_eq_true_eq] at h2
      omega
    rw [X11.key_type_unicode, if_neg hna]
  · intro env
    rfl

/-- Witness for C8: the amended theorem evaluated on the one-character
non-ASCII text. -/
theorem key_type_unicode_not_implemented_amended_witness :
    '€' ∈ ("€" : String).toList
    ∧ 128 ≤ '€'.toNat
    ∧ X11.key_type_unicode keyEnv8 "€" =
        Except.error (GuiError.notImplementedError
          "Unicode typing not yet implemented for X11") :=
  ⟨by decide, by decide,
   key_type_unicode_not_implemented_amended.1 keyEnv8 "€" ⟨'€', by decide, by decide⟩⟩

/-- C8 counterexample: `"!"` has no entry in the key-code map, yet
`key_type_unicode` on the all-ASCII text `"!"` completes without
`NotImplementedError` — it injects the fallback keycode 0 instead of
failing. -/
theorem x11_unmapped_ascii_silently_typed :
    keyEnv8.keyCodeMap "!" = none
    ∧ X11.key_type_unicode keyEnv8 "!" = Except.ok [0]
    ∧ X11.key_type_unicode keyEnv8 "!" ≠
        Except.error (GuiError.notImplementedError
          "Unicode typing not yet implemented for X11") := by
  have hok : X11.key_type_unicode keyEnv8 "!" = Except.ok [0] := rfl
  refine ⟨by decide, hok, ?_⟩
  rw [hok]
  simp

/-- C9 (amended): on macOS, five of the six window operations —
`resize_window`, `set_window_state`, `close_window`, `set_window_opacity`,
`set_window_always_on_top` — raise `BackendCapabilityError` carrying the
operation name and the platform name "macOS" for every argument, but
`get_window_state` declines nothing: it returns the normal value
`WindowState.NORMAL` for every handle. As frozen ("each of the six ...
raises"), the claim fails on `get_window_state`: see the counterexample. -/
theorem macos_window_ops_decline_amended :
    (∀ (h : Nat) (w ht : Int), MacOS.resize_window h w ht =
      Except.error (GuiError.backendCapabilityError "resize_window" "macOS"))
    ∧ (∀ (h : Nat) (st : WindowState), MacOS.set_window_state h st =
        Except.error (GuiError.backendCapabilityError "set_window_state" "macOS"))
    ∧ (∀ h : Nat, MacOS.close_window h =
        Except.error (GuiError.backendCapabilityError "close_window" "macOS"))
    ∧ (∀ (h : Nat) (o : ℚ), MacOS.set_window_opacity h o =
        Except.error (GuiError.backendCapabilityError "set_window_opacity" "macOS"))
    ∧ (∀ (h : Nat) (b : Bool), MacOS.set_window_always_on_top h b =
        Except.error (GuiError.backendCapabilityError "set_window_always_on_top" "macOS"))
    ∧ (∀ h : Nat, MacOS.get_window_state h = Except.ok WindowState.normal) :=
  ⟨fun _ _ _ => rfl, fun _ _ => rfl, fun _ => rfl, fun _ _ => rfl,
   fun _ _ => rfl, fun _ => rfl⟩

/-- C9 counterexample: `get_window_state` at handle 0 returns the normal
value `WindowState.NORMAL` and does not raise the capability error. -/
theorem macos_get_window_state_returns_normal :
    MacOS.get_window_state 0 = Except.ok WindowState.normal
    ∧ MacOS.get_window_state 0 ≠
        Except.error (GuiError.backendCapabilityError "get_window_state" "macOS") := by
  refine ⟨rfl, ?_⟩
  rw [show MacOS.get_window_state 0 = Except.ok WindowState.normal from rfl]
  simp

/-- C10 (confirmed): with no CLIPBOARD owner, the X11 `clipboard_get_text`
returns `""` (before any conversion request or waiting) and raises nothing;
`clipboard_has_text` is `false` both with no owner and with an owner serving
the empty string, and `clipboard_get_text` returns `""` in both states, so
the two states are indistinguishable through the public clipboard
interface. -/
theorem x11_clipboard_no_owner_empty_indistinguishable :
    X11.clipboard_get_text ⟨none⟩ = Except.ok ""
    ∧ X11.clipboard_has_text ⟨none⟩ = false
    ∧ X11.clipboard_has_text ⟨some ""⟩ = false
    ∧ X11.clipboard_get_text ⟨none⟩ = X11.clipboard_get_text ⟨some ""⟩
    ∧ X11.clipboard_has_text ⟨none⟩ = X11.clipboard_has_text ⟨some ""⟩ :=
  ⟨rfl, rfl, rfl, rfl, rfl⟩

end Guiguigui
